import Mathlib

/-!
Verification of the host-side configuration pipeline of the imxrt-rt runtime
crate, as implemented in `src/host.rs`.

The development shallowly embeds the pure content of the Rust code:

* machine integers (`u32`, `usize`) become `Nat`; every arithmetic operation
  performed by the code stays far below `2^32` on the inputs the code guards
  for, and saturating subtraction (`usize::saturating_sub`) coincides with
  truncated `Nat` subtraction;
* fallible code becomes `Option`/`Except`: `assert!`/`panic!`/`expect` paths
  are `none` (or a `panic` error), `Result<_, String>` becomes
  `Except ConfigError _` where `ConfigError` is a structured rendering of the
  `format!` messages, carrying exactly the data interpolated into them;
* the environment consulted by `EnvOverride::read` becomes an explicit map
  `String → Option String`;
* the text written by the emitter becomes a list of `Directive` values, one
  per `writeln!`/`write_all` call, in emission order.
-/

set_option maxRecDepth 10000

namespace ImxrtRt

/-- Memory partitions (`enum Memory` in `host.rs`). -/
inductive Memory
  | Flash
  | Dtcm
  | Itcm
  | Ocram
deriving DecidableEq

/-- The FlexSPI peripheral that interfaces the flash chip (`enum FlexSpi`). -/
inductive FlexSpi
  | FlexSpi1
  | FlexSpi2
deriving DecidableEq

/-- i.MX RT chip family (`enum Family`). -/
inductive Family
  | Imxrt1010
  | Imxrt1015
  | Imxrt1020
  | Imxrt1040
  | Imxrt1050
  | Imxrt1060
  | Imxrt1064
  | Imxrt1160
  | Imxrt1170
  | Imxrt1180
deriving DecidableEq

/-- Describes how a FlexRAM bank is being used (`enum FlexRamKind`). -/
inductive FlexRamKind
  | Unused
  | Ocram
  | Dtcm
  | Itcm
deriving DecidableEq

/-- The `#[repr(u32)]` discriminant of `FlexRamKind`, i.e. the value of
`*kind as u32` (Unused = 0, Ocram = 1, Dtcm = 2, Itcm = 3). -/
def FlexRamKind.code : FlexRamKind → Nat
  | .Unused => 0
  | .Ocram => 1
  | .Dtcm => 2
  | .Itcm => 3

/-- `FlexSpi::family_default`. -/
def FlexSpi.family_default (family : Family) : FlexSpi :=
  match family with
  | .Imxrt1064 => .FlexSpi2
  | .Imxrt1010 | .Imxrt1015 | .Imxrt1020 | .Imxrt1040 | .Imxrt1050
  | .Imxrt1060 | .Imxrt1160 | .Imxrt1170 | .Imxrt1180 => .FlexSpi1

/-- `FlexSpi::start_address`: starting address of the FlexSPI memory region,
`none` when the instance is not available on the family. -/
def FlexSpi.start_address (self : FlexSpi) (family : Family) : Option Nat :=
  match self, family with
  | .FlexSpi1, .Imxrt1010 | .FlexSpi1, .Imxrt1015 | .FlexSpi1, .Imxrt1020
  | .FlexSpi1, .Imxrt1040 | .FlexSpi1, .Imxrt1050 | .FlexSpi1, .Imxrt1060
  | .FlexSpi1, .Imxrt1064 => some 0x60000000
  | .FlexSpi2, .Imxrt1010 | .FlexSpi2, .Imxrt1015 | .FlexSpi2, .Imxrt1020
  | .FlexSpi2, .Imxrt1050 => none
  | .FlexSpi2, .Imxrt1040 | .FlexSpi2, .Imxrt1060 | .FlexSpi2, .Imxrt1064 => some 0x70000000
  | .FlexSpi1, .Imxrt1160 => some 0x30000000
  | .FlexSpi2, .Imxrt1160 => some 0x60000000
  | .FlexSpi1, .Imxrt1170 => some 0x30000000
  | .FlexSpi2, .Imxrt1170 => some 0x60000000
  | .FlexSpi1, .Imxrt1180 => some 0x28000000
  | .FlexSpi2, .Imxrt1180 => some 0x04000000

/-- `FlexSpi::supported_for_family`. -/
def FlexSpi.supported_for_family (self : FlexSpi) (family : Family) : Bool :=
  (self.start_address family).isSome

/-- Flash options held by flash-targeting builders (`struct FlashOpts`). -/
structure FlashOpts where
  size : Nat
  offset : Nat
  flexspi : FlexSpi
  boot_header : Bool
deriving DecidableEq

/-- `FlashOpts::flash_origin`: flash address of the image within FlexSPI
memory (start address plus partition offset). -/
def FlashOpts.flash_origin (self : FlashOpts) (family : Family) : Option Nat :=
  (self.flexspi.start_address family).map (fun start_address => start_address + self.offset)

/-- `Family::id`. -/
def Family.id : Family → Nat
  | .Imxrt1010 => 0x1010
  | .Imxrt1015 => 0x1015
  | .Imxrt1020 => 0x1020
  | .Imxrt1040 => 0x1040
  | .Imxrt1050 => 0x1050
  | .Imxrt1060 => 0x1060
  | .Imxrt1064 => 0x1064
  | .Imxrt1160 => 0x1160
  | .Imxrt1170 => 0x1170
  | .Imxrt1180 => 0x1180

/-- `Family::flexram_bank_count`: how many FlexRAM banks are available. -/
def Family.flexram_bank_count : Family → Nat
  | .Imxrt1010 | .Imxrt1015 => 4
  | .Imxrt1020 => 8
  | .Imxrt1040 | .Imxrt1050 | .Imxrt1060 | .Imxrt1064 => 16
  | .Imxrt1160 | .Imxrt1170 => 16
  | .Imxrt1180 => 2

/-- `Family::flexram_bank_size`: how large (bytes) each FlexRAM bank is. -/
def Family.flexram_bank_size : Family → Nat
  | .Imxrt1010 | .Imxrt1015 | .Imxrt1020 | .Imxrt1040 | .Imxrt1050
  | .Imxrt1060 | .Imxrt1064 | .Imxrt1160 | .Imxrt1170 => 32 * 1024
  | .Imxrt1180 => 128 * 1024

/-- `Family::bootrom_ocram_banks`: how many OCRAM banks the boot ROM needs. -/
def Family.bootrom_ocram_banks : Family → Nat
  | .Imxrt1010 | .Imxrt1015 | .Imxrt1020 | .Imxrt1040 | .Imxrt1050 => 1
  | .Imxrt1060 | .Imxrt1064 => 0
  | .Imxrt1160 | .Imxrt1170 | .Imxrt1180 => 0

/-- `Family::fcb_offset`: where the FlexSPI configuration bank is located. -/
def Family.fcb_offset : Family → Nat
  | .Imxrt1010 | .Imxrt1160 | .Imxrt1170 | .Imxrt1180 => 0x400
  | .Imxrt1015 | .Imxrt1020 | .Imxrt1040 | .Imxrt1050 | .Imxrt1060 | .Imxrt1064 => 0x000

/-- `Family::ocram_start`: where the OCRAM region begins. -/
def Family.ocram_start : Family → Nat
  | .Imxrt1170 => 0x20240000
  | .Imxrt1160 => 0x20340000
  | .Imxrt1180 => 0x20484000
  | .Imxrt1010 | .Imxrt1015 | .Imxrt1020 | .Imxrt1040 | .Imxrt1050
  | .Imxrt1060 | .Imxrt1064 => 0x20200000

/-- `Family::dedicated_ocram_size`: size, in bytes, of the dedicated OCRAM
section (zero for chips without one). -/
def Family.dedicated_ocram_size : Family → Nat
  | .Imxrt1010 | .Imxrt1015 | .Imxrt1020 | .Imxrt1040 | .Imxrt1050 => 0
  | .Imxrt1060 | .Imxrt1064 => 512 * 1024
  | .Imxrt1160 => (2 * 64 + 128) * 1024
  | .Imxrt1170 => (2 * 512 + 2 * 64 + 128) * 1024
  | .Imxrt1180 => (512 + 256 - 16) * 1024

/-- FlexRAM bank allocations (`struct FlexRamBanks`). -/
structure FlexRamBanks where
  ocram : Nat
  itcm : Nat
  dtcm : Nat
deriving DecidableEq

/-- `Family::default_flexram_banks`: default bank allocations (all-zero fuses). -/
def Family.default_flexram_banks : Family → FlexRamBanks
  | .Imxrt1010 | .Imxrt1015 => { ocram := 2, itcm := 1, dtcm := 1 }
  | .Imxrt1020 => { ocram := 4, itcm := 2, dtcm := 2 }
  | .Imxrt1040 | .Imxrt1050 | .Imxrt1060 | .Imxrt1064 => { ocram := 8, itcm := 4, dtcm := 4 }
  | .Imxrt1160 | .Imxrt1170 => { ocram := 0, itcm := 8, dtcm := 8 }
  | .Imxrt1180 => { ocram := 0, itcm := 1, dtcm := 1 }

/-- `Family::default_flexram_layout`: default bank layout (all-zero fuses). -/
def Family.default_flexram_layout : Family → List FlexRamKind
  | .Imxrt1010 | .Imxrt1015 =>
    [.Ocram, .Ocram, .Dtcm, .Itcm]
  | .Imxrt1020 =>
    [.Ocram, .Ocram, .Dtcm, .Dtcm, .Itcm, .Itcm, .Ocram, .Ocram]
  | .Imxrt1040 | .Imxrt1050 | .Imxrt1060 | .Imxrt1064 =>
    [.Ocram, .Ocram, .Ocram, .Ocram, .Dtcm, .Dtcm, .Itcm, .Itcm,
     .Itcm, .Itcm, .Dtcm, .Dtcm, .Ocram, .Ocram, .Ocram, .Ocram]
  | .Imxrt1160 | .Imxrt1170 =>
    [.Dtcm, .Dtcm, .Dtcm, .Dtcm, .Itcm, .Itcm, .Itcm, .Itcm,
     .Dtcm, .Dtcm, .Dtcm, .Dtcm, .Itcm, .Itcm, .Itcm, .Itcm]
  | .Imxrt1180 => [.Itcm, .Dtcm]

/-- `Family::itcm_start_size`: start address and size of the ITCM memory
region for the given number of ITCM banks. On all families but the 1180 the
first 32 bytes are reserved (null-pointer / minimum MPU region), with a
saturating subtraction; truncated `Nat` subtraction models
`usize::saturating_sub` exactly. The 1180 arm computes
`0x10000000 - itcm_size`; for the bank counts the pipeline can produce
(at most 2 banks of 128 KiB) this never underflows. -/
def Family.itcm_start_size (self : Family) (itcm_banks : Nat) : Nat × Nat :=
  let itcm_size := itcm_banks * self.flexram_bank_size
  match self with
  | .Imxrt1010 | .Imxrt1015 | .Imxrt1020 | .Imxrt1040 | .Imxrt1050
  | .Imxrt1060 | .Imxrt1064 | .Imxrt1160 | .Imxrt1170 => (32, itcm_size - 32)
  | .Imxrt1180 => (0x10000000 - itcm_size, itcm_size)

/-- `FlexRamBanks::to_flexram_layout`: push `ocram` OCRAM banks, then `dtcm`
DTCM banks, then `itcm` ITCM banks. -/
def FlexRamBanks.to_flexram_layout (self : FlexRamBanks) : List FlexRamKind :=
  List.replicate self.ocram FlexRamKind.Ocram
    ++ List.replicate self.dtcm FlexRamKind.Dtcm
    ++ List.replicate self.itcm FlexRamKind.Itcm

/-- `layout_count_of`: count how many RAM kinds there are in this layout. -/
def layout_count_of (kind : FlexRamKind) (layout : List FlexRamKind) : Nat :=
  (layout.filter (fun k => k = kind)).length

/-- `flexram_config`: produce the `u32` describing the FlexRAM configuration.
The `assert!` guard (layout longer than the bank count) and the 1180
`panic!("Unsupported FlexRAM configuration")` arm are modelled as `none`.
The non-1180 arm is the source's mask/shift loop, as a fold over the layout;
all shifts stay below 32, so `Nat` matches `u32`. -/
def flexram_config (family : Family) (layout : List FlexRamKind) : Option Nat :=
  if family.flexram_bank_count < layout.length then
    none
  else if family = Family.Imxrt1180 then
    match layout_count_of .Itcm layout, layout_count_of .Dtcm layout,
      layout_count_of .Ocram layout with
    | 1, 1, 0 => some 0b00
    | 2, 0, 0 => some 0b10
    | 0, 2, 0 => some 0b01
    | _, _, _ => none
  else
    some (layout.foldl
      (fun ms kind => (ms.1 ||| (kind.code <<< ms.2), ms.2 + 2)) ((0 : Nat), (0 : Nat))).1

/-- Decimal digits of an unsigned-integer literal, as consumed by Rust's
`str::parse::<usize>()`: at least one ASCII digit, most significant first. -/
def parse_digits (cs : List Char) : Option Nat :=
  if cs ≠ [] ∧ cs.all (fun c => c.isDigit) then
    some (cs.foldl (fun acc c => acc * 10 + (c.toNat - '0'.toNat)) 0)
  else
    none

/-- Rust's `str::parse::<usize>()` on the strings this pipeline feeds it:
an optional leading `+` followed by one or more ASCII digits; anything else
is a parse error (`none`). (Values exceeding `usize::MAX` would also be
errors in Rust; the pipeline never constructs them.) -/
def parse_usize_chars (cs : List Char) : Option Nat :=
  match cs with
  | [] => none
  | '+' :: rest => parse_digits rest
  | cs => parse_digits cs

/-- `str::parse::<usize>()` on a `String`. -/
def parse_usize (s : String) : Option Nat :=
  parse_usize_chars s.toList

/-- A stack/heap size with an optional environment override
(`struct EnvOverride`). -/
structure EnvOverride where
  default : Nat
  env : Option String
deriving DecidableEq

/-- `EnvOverride::new`. -/
def EnvOverride.new (default : Nat) : EnvOverride :=
  { default := default, env := none }

/-- `EnvOverride::set_env_key`: unconditionally replaces the stored key. -/
def EnvOverride.set_env_key (self : EnvOverride) (key : String) : EnvOverride :=
  { self with env := some key }

/-- `EnvOverride::read`, with the process environment passed explicitly as
`envMap`. If a key is stored and the variable is set, the value is parsed
(with a trailing `k`/`K` meaning a multiple of 1024, via `ends_with` and a
one-byte truncation); otherwise the default is returned. The
`cargo:rerun-if-env-changed` print is a build-system side effect with no
bearing on the returned value. -/
def EnvOverride.read (self : EnvOverride) (envMap : String → Option String) : Option Nat :=
  match self.env.bind envMap with
  | some val =>
    let cs := val.toList
    if cs.getLast? = some 'k' ∨ cs.getLast? = some 'K' then
      (parse_usize_chars cs.dropLast).map (fun n => n * 1024)
    else
      parse_usize_chars cs
  | none => some self.default

/-- Builder for the i.MX RT runtime (`struct RuntimeBuilder`). Each Rust
setter assigns exactly one of these fields; theorems use record-update
syntax for the setters whose names collide with their fields. -/
structure RuntimeBuilder where
  family : Family
  flexram_layout : List FlexRamKind
  text : Memory
  rodata : Memory
  data : Memory
  vectors : Memory
  bss : Memory
  uninit : Memory
  stack : Memory
  stack_size : EnvOverride
  heap : Memory
  heap_size : EnvOverride
  flash_opts : Option FlashOpts
  linker_script_name : String
  device_script_name : String
deriving DecidableEq

/-- `DEFAULT_LINKER_SCRIPT_NAME`. -/
def DEFAULT_LINKER_SCRIPT_NAME : String := "imxrt-link.x"

/-- `DEFAULT_DEVICE_SCRIPT_NAME`. -/
def DEFAULT_DEVICE_SCRIPT_NAME : String := "device.x"

/-- `RuntimeBuilder::from_flexspi`: a runtime that executes and loads from
FlexSPI flash. -/
def RuntimeBuilder.from_flexspi (family : Family) (flash_size : Nat) : RuntimeBuilder :=
  { family := family
    flexram_layout := family.default_flexram_layout
    text := .Itcm
    rodata := .Ocram
    data := .Ocram
    vectors := .Dtcm
    bss := .Ocram
    uninit := .Ocram
    stack := .Dtcm
    stack_size := EnvOverride.new (8 * 1024)
    heap := .Dtcm
    heap_size := EnvOverride.new 0
    flash_opts := some
      { size := flash_size
        offset := 0
        boot_header := true
        flexspi := FlexSpi.family_default family }
    linker_script_name := DEFAULT_LINKER_SCRIPT_NAME
    device_script_name := DEFAULT_DEVICE_SCRIPT_NAME }

/-- `RuntimeBuilder::in_flash`: a flash partition booted by the caller's own
software. -/
def RuntimeBuilder.in_flash (family : Family) (partition_size : Nat)
    (partition_offset : Nat) : RuntimeBuilder :=
  { family := family
    flexram_layout := family.default_flexram_layout
    text := .Itcm
    rodata := .Ocram
    data := .Ocram
    vectors := .Dtcm
    bss := .Ocram
    uninit := .Ocram
    stack := .Dtcm
    stack_size := EnvOverride.new (8 * 1024)
    heap := .Dtcm
    heap_size := EnvOverride.new 0
    flash_opts := some
      { size := partition_size
        offset := partition_offset
        boot_header := false
        flexspi := FlexSpi.family_default family }
    linker_script_name := DEFAULT_LINKER_SCRIPT_NAME
    device_script_name := DEFAULT_DEVICE_SCRIPT_NAME }

/-- `RuntimeBuilder::from_ram`: a runtime that executes from RAM. -/
def RuntimeBuilder.from_ram (family : Family) : RuntimeBuilder :=
  { family := family
    flexram_layout := family.default_flexram_layout
    text := .Itcm
    rodata := .Ocram
    data := .Ocram
    vectors := .Dtcm
    bss := .Ocram
    uninit := .Ocram
    stack := .Dtcm
    stack_size := EnvOverride.new (8 * 1024)
    heap := .Dtcm
    heap_size := EnvOverride.new 0
    flash_opts := none
    linker_script_name := DEFAULT_LINKER_SCRIPT_NAME
    device_script_name := DEFAULT_DEVICE_SCRIPT_NAME }

/-- `RuntimeBuilder::flexram_banks`: delegates to the layout setter with the
canonical layout produced from the counts. -/
def RuntimeBuilder.set_flexram_banks (self : RuntimeBuilder)
    (flexram_banks : FlexRamBanks) : RuntimeBuilder :=
  { self with flexram_layout := flexram_banks.to_flexram_layout }

/-- `RuntimeBuilder::stack_size_env_override`. -/
def RuntimeBuilder.stack_size_env_override (self : RuntimeBuilder)
    (key : String) : RuntimeBuilder :=
  { self with stack_size := self.stack_size.set_env_key key }

/-- `RuntimeBuilder::heap_size_env_override`. -/
def RuntimeBuilder.heap_size_env_override (self : RuntimeBuilder)
    (key : String) : RuntimeBuilder :=
  { self with heap_size := self.heap_size.set_env_key key }

/-- Structured rendering of the `Err(format!(...))` messages produced by
`RuntimeBuilder::check_configurations`, carrying exactly the data that the
corresponding format string interpolates. -/
inductive ConfigError
  /-- "Chip `family` only has `bankCount` total FlexRAM banks. Cannot
  allocate `layout`, a total of `total` banks" -/
  | tooManyBanks (family : Family) (bankCount : Nat) (layout : List FlexRamKind) (total : Nat)
  /-- "Chip `family` requires at least `required` OCRAM banks for the
  bootloader ROM" -/
  | insufficientOcram (family : Family) (required : Nat)
  /-- "Chip `family` does not support `flexspi`" -/
  | unsupportedFlexSpi (family : Family) (flexspi : FlexSpi)
  /-- "Section '`name`' cannot be placed in flash" -/
  | sectionInFlash (name : String)
deriving DecidableEq

instance {ε α : Type} [DecidableEq ε] [DecidableEq α] : DecidableEq (Except ε α) := fun a b =>
  match a, b with
  | .error e, .error f =>
    decidable_of_iff (e = f) ⟨fun h => by rw [h], fun h => by injection h⟩
  | .ok x, .ok y =>
    decidable_of_iff (x = y) ⟨fun h => by rw [h], fun h => by injection h⟩
  | .error _, .ok _ => isFalse (fun h => Except.noConfusion h)
  | .ok _, .error _ => isFalse (fun h => Except.noConfusion h)

/-- `prevent_flash` (the helper inside `check_configurations`). -/
def prevent_flash (name : String) (memory : Memory) : Except ConfigError Unit :=
  if memory = Memory.Flash then
    .error (.sectionInFlash name)
  else
    .ok ()

/-- The `prevent_flash!` chain at the end of `check_configurations`,
in source order. -/
def section_checks (self : RuntimeBuilder) : Except ConfigError Unit := do
  prevent_flash "data" self.data
  prevent_flash "vectors" self.vectors
  prevent_flash "bss" self.bss
  prevent_flash "uninit" self.uninit
  prevent_flash "stack" self.stack
  prevent_flash "heap" self.heap

/-- The tail of `check_configurations` after the bank-count check: the
boot-ROM OCRAM check, the FlexSPI support check (`if let Some(flash_opts) =
&self.flash_opts && !flash_opts.flexspi.supported_for_family(...)`), and the
per-section `prevent_flash!` chain, in source order. -/
def check_configurations_rest (self : RuntimeBuilder) : Except ConfigError Unit :=
  if layout_count_of .Ocram self.flexram_layout < self.family.bootrom_ocram_banks then
    .error (.insufficientOcram self.family self.family.bootrom_ocram_banks)
  else match self.flash_opts with
    | some flash_opts =>
      if ¬ flash_opts.flexspi.supported_for_family self.family then
        .error (.unsupportedFlexSpi self.family flash_opts.flexspi)
      else
        section_checks self
    | none => section_checks self

/-- `RuntimeBuilder::check_configurations`: the i.MX RT specific sanity
checks, first failure wins. -/
def RuntimeBuilder.check_configurations (self : RuntimeBuilder) : Except ConfigError Unit :=
  if self.family.flexram_bank_count < self.flexram_layout.length then
    .error (.tooManyBanks self.family self.family.flexram_bank_count
      self.flexram_layout self.flexram_layout.length)
  else
    check_configurations_rest self

/-- One emitted line/blob of the generated linker script. Each constructor
corresponds to one `writeln!`/`write_all` call of the emitter, carrying the
data interpolated into it. -/
inductive Directive
  /-- "/* Memory map for 'family' with custom flash length size. */" -/
  | flashComment (family : Family) (size : Nat)
  /-- "/* Memory map for 'family' that executes from RAM. */" -/
  | ramComment (family : Family)
  /-- "MEMORY ..." opening line of the MEMORY command. -/
  | memoryStart
  /-- "name (RWX) : ORIGIN = origin, LENGTH = length" -/
  | memoryBlock (name : String) (origin length : Nat)
  /-- The closing line of the MEMORY command. -/
  | memoryEnd
  /-- "name = value;" for a numeric symbol such as `__fcb_offset`,
  `__stack_size`, `__heap_size`, `__flexram_config`, `__imxrt_rt_v0.2`. -/
  | symbol (name : String) (value : Nat)
  /-- The family's boot-header blob (`imxrt-boot-header.x` or
  `imxrt-boot-header-1180.x`), written verbatim. -/
  | bootHeader (family : Family)
  /-- "INCLUDE name" for the device script. -/
  | includeDevice (name : String)
  /-- "REGION_ALIAS(\"REGION_name\", placement);" (`fn region_alias`). -/
  | regionAlias (name : String) (placement : Memory)
  /-- The fixed `imxrt-link.x` boilerplate, written verbatim. -/
  | linkX
deriving DecidableEq

/-- `write_flexram_memories`: RAM-like memory blocks, one per FlexRAM
section that has at least one bank (OCRAM also counts its dedicated size). -/
def write_flexram_memories (family : Family) (flexram_layout : List FlexRamKind) :
    List Directive :=
  let itcm_count := layout_count_of .Itcm flexram_layout
  let dtcm_count := layout_count_of .Dtcm flexram_layout
  let ocram_count := layout_count_of .Ocram flexram_layout
  (if 0 < itcm_count then
    [.memoryBlock "ITCM" (family.itcm_start_size itcm_count).1
      (family.itcm_start_size itcm_count).2]
  else [])
  ++ (if 0 < dtcm_count then
    [.memoryBlock "DTCM" 0x20000000 (dtcm_count * family.flexram_bank_size)]
  else [])
  ++ (let ocram_size := ocram_count * family.flexram_bank_size + family.dedicated_ocram_size
    if 0 < ocram_size then
      [.memoryBlock "OCRAM" family.ocram_start ocram_size]
    else [])

/-- `write_flash_memory_map`: the MEMORY command with a FLASH block, plus the
`__fcb_offset` symbol. The `expect("Already checked")` on the flash origin is
modelled as `none`. -/
def write_flash_memory_map (family : Family) (flash_opts : FlashOpts)
    (flexram_layout : List FlexRamKind) : Option (List Directive) :=
  match flash_opts.flash_origin family with
  | none => none
  | some origin =>
    some ([.flashComment family flash_opts.size, .memoryStart,
      .memoryBlock "FLASH" origin flash_opts.size]
      ++ write_flexram_memories family flexram_layout
      ++ [.memoryEnd, .symbol "__fcb_offset" family.fcb_offset])

/-- `write_ram_memory_map`: the MEMORY command without flash. -/
def write_ram_memory_map (family : Family) (flexram_layout : List FlexRamKind) :
    List Directive :=
  [.ramComment family, .memoryStart]
    ++ write_flexram_memories family flexram_layout
    ++ [.memoryEnd]

/-- Failures of `RuntimeBuilder::write_linker_script`. -/
inductive BuildError
  /-- A validation failure (`check_configurations` error string). -/
  | config (e : ConfigError)
  /-- A stack/heap size value that did not parse. -/
  | sizeParse
  /-- A `panic!`/`expect` path (unreachable after validation). -/
  | panicked
deriving DecidableEq

/-- `RuntimeBuilder::write_linker_script`, producing the emitted directives
in order. `device_feature` is the compile-time `cfg!(feature = "device")`
flag; `envMap` is the process environment read by the stack/heap size
overrides. -/
def RuntimeBuilder.write_linker_script (self : RuntimeBuilder)
    (device_feature : Bool) (envMap : String → Option String) :
    Except BuildError (List Directive) :=
  match self.check_configurations with
  | .error e => .error (.config e)
  | .ok _ =>
    let memory_map_result : Except BuildError (List Directive) :=
      match self.flash_opts with
      | some flash_opts =>
        match write_flash_memory_map self.family flash_opts self.flexram_layout with
        | none => .error .panicked
        | some mm =>
          if flash_opts.boot_header then
            .ok (mm ++ [Directive.bootHeader self.family])
          else
            .ok mm
      | none => .ok (write_ram_memory_map self.family self.flexram_layout)
    match memory_map_result with
    | .error e => .error e
    | .ok memory_map =>
      match self.stack_size.read envMap with
      | none => .error .sizeParse
      | some stack_size =>
        match self.heap_size.read envMap with
        | none => .error .sizeParse
        | some heap_size =>
          match flexram_config self.family self.flexram_layout with
          | none => .error .panicked
          | some flexram_word =>
            .ok (memory_map
              ++ (if device_feature then
                  [Directive.includeDevice self.device_script_name] else [])
              ++ [Directive.regionAlias "TEXT" self.text,
                  Directive.regionAlias "VTABLE" self.vectors,
                  Directive.regionAlias "RODATA" self.rodata,
                  Directive.regionAlias "DATA" self.data,
                  Directive.regionAlias "BSS" self.bss,
                  Directive.regionAlias "UNINIT" self.uninit,
                  Directive.regionAlias "STACK" self.stack,
                  Directive.regionAlias "HEAP" self.heap,
                  Directive.symbol "__stack_size" stack_size,
                  Directive.symbol "__heap_size" heap_size]
              ++ (if self.flash_opts.isSome then
                  [Directive.regionAlias "LOAD_VTABLE" Memory.Flash,
                   Directive.regionAlias "LOAD_TEXT" Memory.Flash,
                   Directive.regionAlias "LOAD_RODATA" Memory.Flash,
                   Directive.regionAlias "LOAD_DATA" Memory.Flash]
                else
                  [Directive.regionAlias "LOAD_VTABLE" self.vectors,
                   Directive.regionAlias "LOAD_TEXT" self.text,
                   Directive.regionAlias "LOAD_RODATA" self.rodata,
                   Directive.regionAlias "LOAD_DATA" self.data])
              ++ [Directive.symbol "__flexram_config" flexram_word,
                  Directive.symbol "__imxrt_rt_v0.2" self.family.id,
                  Directive.linkX])

/-- The spec's formula for the encoded configuration word: the bitwise-OR
over all indices `i` of the layout of `(code(layout[i]) <<< (2 * i))`.
Stated independently of the source's mask/shift loop, to be compared with
`flexram_config`. -/
def flexram_config_spec (layout : List FlexRamKind) : Nat :=
  (List.range layout.length).foldr
    (fun i acc => ((layout.getD i FlexRamKind.Unused).code <<< (2 * i)) ||| acc) 0

/-- The mask/shift loop of `flexram_config`, rephrased as structural
recursion on the layout with the running shift made explicit. -/
def flexram_config_word : List FlexRamKind → Nat → Nat
  | [], _ => 0
  | kind :: rest, shift => (kind.code <<< shift) ||| flexram_config_word rest (shift + 2)

/-- The `i`-th two-bit field of an encoded configuration word: bank `i`
occupies bits `[2*i : 2*i+1]`. -/
def flexram_field (i word : Nat) : Nat :=
  (word >>> (2 * i)) % 4

/-- Decode a role count back out of an encoded word: how many of the first
`banks` two-bit fields hold the code of `kind`. -/
def field_count_of (kind : FlexRamKind) (word banks : Nat) : Nat :=
  ((List.range banks).filter (fun i => flexram_field i word = kind.code)).length

/-- The first section of the fixed `prevent_flash!` order
(data, vectors, bss, uninit, stack, heap) that is placed in flash. -/
def first_flash_section (b : RuntimeBuilder) : Option String :=
  if b.data = Memory.Flash then some "data"
  else if b.vectors = Memory.Flash then some "vectors"
  else if b.bss = Memory.Flash then some "bss"
  else if b.uninit = Memory.Flash then some "uninit"
  else if b.stack = Memory.Flash then some "stack"
  else if b.heap = Memory.Flash then some "heap"
  else none

/-- Is this directive one of the four load-location aliases? -/
def is_load_alias : Directive → Bool
  | .regionAlias name _ =>
    name = "LOAD_VTABLE" ∨ name = "LOAD_TEXT" ∨ name = "LOAD_RODATA" ∨ name = "LOAD_DATA"
  | _ => false

/-- Is this directive a memory-block declaration named FLASH? -/
def is_flash_block : Directive → Bool
  | .memoryBlock name _ _ => name = "FLASH"
  | _ => false

/-- A builder that over-allocates banks *and* places two sections in flash:
the input of the counterexample to C4 as frozen. -/
def c4_cex_builder : RuntimeBuilder :=
  { RuntimeBuilder.from_ram Family.Imxrt1010 with
    flexram_layout := List.replicate 5 FlexRamKind.Ocram,
    data := Memory.Flash,
    stack := Memory.Flash }

/-- The artifact emitted for a RAM build of the 1060 with an empty bank
layout (the C8 witness input), line by line. -/
def c8_witness_ds : List Directive :=
  [.ramComment Family.Imxrt1060,
   .memoryStart,
   .memoryBlock "OCRAM" 0x20200000 (512 * 1024),
   .memoryEnd,
   .regionAlias "TEXT" Memory.Itcm,
   .regionAlias "VTABLE" Memory.Dtcm,
   .regionAlias "RODATA" Memory.Ocram,
   .regionAlias "DATA" Memory.Ocram,
   .regionAlias "BSS" Memory.Ocram,
   .regionAlias "UNINIT" Memory.Ocram,
   .regionAlias "STACK" Memory.Dtcm,
   .regionAlias "HEAP" Memory.Dtcm,
   .symbol "__stack_size" 8192,
   .symbol "__heap_size" 0,
   .regionAlias "LOAD_VTABLE" Memory.Dtcm,
   .regionAlias "LOAD_TEXT" Memory.Itcm,
   .regionAlias "LOAD_RODATA" Memory.Ocram,
   .regionAlias "LOAD_DATA" Memory.Ocram,
   .symbol "__flexram_config" 0,
   .symbol "__imxrt_rt_v0.2" 0x1060,
   .linkX]

/-- The artifact emitted for a RAM build of the 1010 whose text and rodata
are placed in flash (the C10 witness input), line by line: the TEXT and
RODATA aliases point at a FLASH block that is never declared. -/
def c10_witness_ds : List Directive :=
  [.ramComment Family.Imxrt1010,
   .memoryStart,
   .memoryBlock "ITCM" 32 32736,
   .memoryBlock "DTCM" 0x20000000 32768,
   .memoryBlock "OCRAM" 0x20200000 65536,
   .memoryEnd,
   .regionAlias "TEXT" Memory.Flash,
   .regionAlias "VTABLE" Memory.Dtcm,
   .regionAlias "RODATA" Memory.Flash,
   .regionAlias "DATA" Memory.Ocram,
   .regionAlias "BSS" Memory.Ocram,
   .regionAlias "UNINIT" Memory.Ocram,
   .regionAlias "STACK" Memory.Dtcm,
   .regionAlias "HEAP" Memory.Dtcm,
   .symbol "__stack_size" 8192,
   .symbol "__heap_size" 0,
   .regionAlias "LOAD_VTABLE" Memory.Dtcm,
   .regionAlias "LOAD_TEXT" Memory.Flash,
   .regionAlias "LOAD_RODATA" Memory.Flash,
   .regionAlias "LOAD_DATA" Memory.Ocram,
   .symbol "__flexram_config" 0b11100101,
   .symbol "__imxrt_rt_v0.2" 0x1010,
   .linkX]

/-! ### Sanity checks against the Rust test suite

These mirror entries of the `flexram_config`, `default_flexram_layouts`,
`runtime_builder_too_many_flexram_banks` and
`runtime_builder_invalid_flash_section` tests of `host.rs`. -/

example : flexram_config Family.Imxrt1170
    (FlexRamBanks.to_flexram_layout { ocram := 1, dtcm := 1, itcm := 14 })
    = some 0b11111111111111111111111111111001 := by decide

example : flexram_config Family.Imxrt1060 (Family.default_flexram_layout Family.Imxrt1060)
    = some 0b01010101101011111111101001010101 := by decide

example : flexram_config Family.Imxrt1180 (Family.default_flexram_layout Family.Imxrt1180)
    = some 0b00 := by decide

example : flexram_config Family.Imxrt1180 [.Ocram, .Ocram] = none := by decide

example : (EnvOverride.new 8192).read (fun _ => none) = some 8192 := by decide

example : ((EnvOverride.new 8192).set_env_key "S").read
    (fun k => if k = "S" then some "4k" else none) = some 4096 := by decide

example : (RuntimeBuilder.from_flexspi Family.Imxrt1060 (16 * 1024)).check_configurations
    = .ok () := by decide

example : ((RuntimeBuilder.from_flexspi Family.Imxrt1010 (16 * 1024)).set_flexram_banks
    { itcm := 32, dtcm := 32, ocram := 32 }).check_configurations
    = .error (.tooManyBanks Family.Imxrt1010 4
        (FlexRamBanks.to_flexram_layout { itcm := 32, dtcm := 32, ocram := 32 }) 96) := by
  decide

example : { RuntimeBuilder.from_flexspi Family.Imxrt1060 0 with
    data := Memory.Flash }.check_configurations
    = .error (.sectionInFlash "data") := by decide

example : ((RuntimeBuilder.from_ram Family.Imxrt1010).write_linker_script false
    (fun _ => none)).isOk = true := by decide

/-! ### Bitwise helper lemmas -/

theorem or_shiftLeft_distrib (a b n : Nat) : (a ||| b) <<< n = (a <<< n) ||| (b <<< n) := by
  apply Nat.eq_of_testBit_eq
  intro i
  simp [Nat.testBit_shiftLeft, Nat.testBit_or, Bool.and_or_distrib_left]

theorem or_shiftRight_distrib (a b n : Nat) : (a ||| b) >>> n = (a >>> n) ||| (b >>> n) := by
  apply Nat.eq_of_testBit_eq
  intro i
  simp [Nat.testBit_shiftRight, Nat.testBit_or]

theorem or_mod_four (a b : Nat) : (a ||| b) % 4 = (a % 4) ||| (b % 4) := by
  have h4 : (4 : Nat) = 2 ^ 2 := rfl
  apply Nat.eq_of_testBit_eq
  intro i
  rw [h4, Nat.testBit_mod_two_pow, Nat.testBit_or, Nat.testBit_or,
    Nat.testBit_mod_two_pow, Nat.testBit_mod_two_pow, Bool.and_or_distrib_left]

theorem shiftLeft_two_mod_four (b : Nat) : (b <<< 2) % 4 = 0 := by
  rw [Nat.shiftLeft_eq]
  omega

theorem shiftLeft_two_shiftRight_two (b : Nat) : (b <<< 2) >>> 2 = b := by
  rw [Nat.shiftLeft_eq, Nat.shiftRight_eq_div_pow]
  omega

theorem shiftRight_eq_zero_of_lt_four (a i : Nat) (h : a < 4) : a >>> (2 * i + 2) = 0 := by
  rw [Nat.shiftRight_eq_div_pow]
  apply Nat.div_eq_of_lt
  calc a < 4 := h
    _ = 2 ^ 2 := rfl
    _ ≤ 2 ^ (2 * i + 2) := Nat.pow_le_pow_right (by omega) (by omega)

theorem FlexRamKind.code_lt_four (k : FlexRamKind) : k.code < 4 := by
  cases k <;> decide

theorem FlexRamKind.code_inj {k k' : FlexRamKind} : k.code = k'.code ↔ k = k' := by
  cases k <;> cases k' <;> decide

/-! ### The mask/shift loop and its two-bit fields -/

/-- The fold inside `flexram_config` computes `flexram_config_word`. -/
theorem foldl_mask_eq_word (layout : List FlexRamKind) :
    ∀ m s : Nat,
      (layout.foldl (fun ms kind => (ms.1 ||| (kind.code <<< ms.2), ms.2 + 2)) (m, s)).1
        = m ||| flexram_config_word layout s := by
  induction layout with
  | nil => intro m s; simp [flexram_config_word]
  | cons kind rest ih =>
    intro m s
    simp only [List.foldl_cons, flexram_config_word, ih, Nat.or_assoc]

/-- Shifting the starting shift of the loop shifts the whole word. -/
theorem flexram_config_word_shift (layout : List FlexRamKind) :
    ∀ s : Nat, flexram_config_word layout s = (flexram_config_word layout 0) <<< s := by
  induction layout with
  | nil => intro s; simp [flexram_config_word]
  | cons kind rest ih =>
    intro s
    rw [flexram_config_word, flexram_config_word, ih (s + 2), ih 2,
      or_shiftLeft_distrib, Nat.shiftLeft_zero, ← Nat.shiftLeft_add]
    rw [Nat.add_comm 2 s]

/-- The `i`-th two-bit field of the encoded word is the code of the `i`-th
bank role (`Unused` past the end of the layout). -/
theorem flexram_field_word (layout : List FlexRamKind) :
    ∀ i : Nat, flexram_field i (flexram_config_word layout 0)
      = (layout.getD i FlexRamKind.Unused).code := by
  induction layout with
  | nil =>
    intro i
    simp [flexram_config_word, flexram_field, FlexRamKind.code]
  | cons kind rest ih =>
    intro i
    rw [flexram_config_word, flexram_config_word_shift rest 2, Nat.shiftLeft_zero]
    match i with
    | 0 =>
      rw [flexram_field]
      simp only [Nat.mul_zero, Nat.shiftRight_zero, List.getD_cons_zero]
      rw [or_mod_four, shiftLeft_two_mod_four, Nat.or_zero,
        Nat.mod_eq_of_lt kind.code_lt_four]
    | i + 1 =>
      rw [flexram_field]
      have h2 : 2 * (i + 1) = 2 + 2 * i := by omega
      rw [h2, Nat.shiftRight_add, or_shiftRight_distrib, shiftLeft_two_shiftRight_two]
      have hk : kind.code >>> 2 = 0 := by
        have := shiftRight_eq_zero_of_lt_four kind.code 0 kind.code_lt_four
        simpa using this
      rw [hk, Nat.zero_or, List.getD_cons_succ, ← flexram_field, ih i]

/-- The indexed bitwise-OR formula, started at shift `s`, computes the
mask/shift loop started at shift `s`. -/
theorem range_foldr_eq_word (layout : List FlexRamKind) :
    ∀ s : Nat, (List.range layout.length).foldr
      (fun i acc => ((layout.getD i FlexRamKind.Unused).code <<< (s + 2 * i)) ||| acc) 0
      = flexram_config_word layout s := by
  induction layout with
  | nil => intro s; simp [flexram_config_word]
  | cons kind rest ih =>
    intro s
    rw [List.length_cons, List.range_succ_eq_map, List.foldr_cons, List.foldr_map]
    simp only [List.getD_cons_zero, List.getD_cons_succ, Nat.mul_zero, Nat.add_zero,
      show ∀ i : Nat, s + 2 * (i + 1) = (s + 2) + 2 * i from fun i => by omega]
    rw [ih (s + 2), flexram_config_word]

/-- The spec's indexed formula equals the loop's word. -/
theorem flexram_config_spec_eq (layout : List FlexRamKind) :
    flexram_config_spec layout = flexram_config_word layout 0 := by
  have h := range_foldr_eq_word layout 0
  simpa [flexram_config_spec] using h

/-- C2: for every family other than Imxrt1180 and every layout whose length
does not exceed the family's bank count, `flexram_config` succeeds and the
encoded word is the bitwise-OR over all indices `i` of
`code(layout[i]) <<< (2*i)`, with codes Unused = 0, Ocram (shared) = 1,
Dtcm (data-local) = 2, Itcm (instruction-local) = 3. -/
theorem claim_C2 (family : Family) (layout : List FlexRamKind)
    (hfam : family ≠ Family.Imxrt1180)
    (hlen : layout.length ≤ family.flexram_bank_count) :
    flexram_config family layout = some (flexram_config_spec layout) := by
  unfold flexram_config
  rw [if_neg (by omega), if_neg hfam]
  rw [foldl_mask_eq_word layout 0 0, Nat.zero_or, flexram_config_spec_eq]

/-- Witness for C2 at the 1060's default layout (16 banks). -/
theorem claim_C2_witness :
    Family.Imxrt1060 ≠ Family.Imxrt1180
    ∧ (Family.default_flexram_layout Family.Imxrt1060).length
      ≤ Family.flexram_bank_count Family.Imxrt1060
    ∧ flexram_config Family.Imxrt1060 (Family.default_flexram_layout Family.Imxrt1060)
      = some (flexram_config_spec (Family.default_flexram_layout Family.Imxrt1060)) :=
  ⟨by decide, by decide,
    claim_C2 Family.Imxrt1060 (Family.default_flexram_layout Family.Imxrt1060)
      (by decide) (by decide)⟩

/-! ### Positional structure of the canonical layout -/

theorem getD_replicate_append {α : Type} (a d : α) (l : List α) :
    ∀ (n i : Nat), (List.replicate n a ++ l).getD i d
      = if i < n then a else l.getD (i - n) d := by
  intro n
  induction n with
  | zero => intro i; simp
  | succ n ih =>
    intro i
    match i with
    | 0 => simp [List.replicate_succ]
    | i + 1 =>
      rw [List.replicate_succ, List.cons_append, List.getD_cons_succ, ih i]
      simp only [Nat.add_lt_add_iff_right, Nat.succ_sub_succ]

theorem getD_replicate {α : Type} (a d : α) (n i : Nat) :
    (List.replicate n a).getD i d = if i < n then a else d := by
  have h := getD_replicate_append a d [] n i
  simpa using h

/-- The bank role at index `i` of the canonical layout: all OCRAM banks
first, then all DTCM banks, then all ITCM banks, then nothing. -/
theorem to_flexram_layout_getD (banks : FlexRamBanks) (i : Nat) :
    banks.to_flexram_layout.getD i FlexRamKind.Unused
      = if i < banks.ocram then FlexRamKind.Ocram
        else if i < banks.ocram + banks.dtcm then FlexRamKind.Dtcm
        else if i < banks.ocram + banks.dtcm + banks.itcm then FlexRamKind.Itcm
        else FlexRamKind.Unused := by
  unfold FlexRamBanks.to_flexram_layout
  rw [List.append_assoc, getD_replicate_append, getD_replicate_append, getD_replicate]
  split_ifs <;> first | rfl | omega

theorem to_flexram_layout_length (banks : FlexRamBanks) :
    banks.to_flexram_layout.length = banks.ocram + banks.dtcm + banks.itcm := by
  simp [FlexRamBanks.to_flexram_layout, Nat.add_assoc]

/-- C3 (amended): the canonical constructor puts all SharedOnChip (OCRAM)
banks at the lowest indices, then all DataLocal (DTCM), then all
InstructionLocal (ITCM); and, for every family *other than the two-bank
Imxrt1180* (which uses the special three-value encoding instead of two-bit
fields), when the triple sums to at most the family's bank count the encoded
word's first `ocram` two-bit fields hold the OCRAM code, the next `dtcm`
fields the DTCM code, the next `itcm` fields the ITCM code, and every
remaining field the Unused code. -/
theorem claim_C3 (family : Family) (banks : FlexRamBanks)
    (hfam : family ≠ Family.Imxrt1180)
    (hsum : banks.ocram + banks.dtcm + banks.itcm ≤ family.flexram_bank_count) :
    flexram_config family banks.to_flexram_layout
      = some (flexram_config_spec banks.to_flexram_layout)
    ∧ ∀ i : Nat,
      flexram_field i (flexram_config_spec banks.to_flexram_layout)
        = if i < banks.ocram then FlexRamKind.code .Ocram
          else if i < banks.ocram + banks.dtcm then FlexRamKind.code .Dtcm
          else if i < banks.ocram + banks.dtcm + banks.itcm then FlexRamKind.code .Itcm
          else FlexRamKind.code .Unused := by
  constructor
  · exact claim_C2 family banks.to_flexram_layout hfam
      (by rw [to_flexram_layout_length]; exact hsum)
  · intro i
    rw [flexram_config_spec_eq, flexram_field_word, to_flexram_layout_getD]
    split_ifs <;> rfl

/-- Witness for C3 at the 1170 with counts (shared = 1, data = 1,
instruction = 14): bits 0-1 hold the OCRAM code, bits 2-3 the DTCM code,
bits 4-31 the ITCM code. -/
theorem claim_C3_witness :
    Family.Imxrt1170 ≠ Family.Imxrt1180
    ∧ 1 + 1 + 14 ≤ Family.flexram_bank_count Family.Imxrt1170
    ∧ (flexram_config Family.Imxrt1170
        (FlexRamBanks.to_flexram_layout { ocram := 1, dtcm := 1, itcm := 14 })
        = some (flexram_config_spec
          (FlexRamBanks.to_flexram_layout { ocram := 1, dtcm := 1, itcm := 14 }))
      ∧ flexram_field 0 (flexram_config_spec
          (FlexRamBanks.to_flexram_layout { ocram := 1, dtcm := 1, itcm := 14 }))
        = FlexRamKind.code .Ocram) :=
  ⟨by decide, by decide,
    (claim_C3 Family.Imxrt1170 { ocram := 1, dtcm := 1, itcm := 14 }
      (by decide) (by decide)).1,
    by
      have h := (claim_C3 Family.Imxrt1170 { ocram := 1, dtcm := 1, itcm := 14 }
        (by decide) (by decide)).2 0
      simpa using h⟩

/-- Counterexample to C3 as frozen: it quantifies over *every* supported
family, but for the two-bank Imxrt1180 with counts
(shared = 0, data = 1, instruction = 1) the encoded word is the fixed code
0b00, whose first field is the Unused code, not the DataLocal (DTCM) code. -/
theorem claim_C3_counterexample :
    FlexRamBanks.ocram { ocram := 0, dtcm := 1, itcm := 1 }
      + FlexRamBanks.dtcm { ocram := 0, dtcm := 1, itcm := 1 }
      + FlexRamBanks.itcm { ocram := 0, dtcm := 1, itcm := 1 }
      ≤ Family.flexram_bank_count Family.Imxrt1180
    ∧ flexram_config Family.Imxrt1180
        (FlexRamBanks.to_flexram_layout { ocram := 0, dtcm := 1, itcm := 1 }) = some 0b00
    ∧ flexram_field 0 0b00 ≠ FlexRamKind.code .Dtcm := by
  refine ⟨by decide, by decide, by decide⟩

/-! ### Counting roles, in layouts and in encoded words -/

theorem filter_replicate_length {α : Type} (p : α → Bool) (a : α) (n : Nat) :
    ((List.replicate n a).filter p).length = if p a then n else 0 := by
  induction n with
  | zero => simp
  | succ n ih =>
    rw [List.replicate_succ, List.filter_cons]
    cases h : p a <;> simp_all

theorem map_getD_range {α : Type} (l : List α) (d : α) :
    (List.range l.length).map (fun i => l.getD i d) = l := by
  induction l with
  | nil => simp
  | cons a l ih =>
    rw [List.length_cons, List.range_succ_eq_map, List.map_cons, List.map_map]
    have hcomp : ((fun i => (a :: l).getD i d) ∘ Nat.succ) = fun i => l.getD i d := by
      funext i
      simp
    rw [hcomp, ih]
    simp

theorem filter_range_add (layout : List FlexRamKind) (kind : FlexRamKind)
    (hk : kind ≠ FlexRamKind.Unused) :
    ∀ m : Nat, ((List.range (layout.length + m)).filter
        (fun i => layout.getD i FlexRamKind.Unused = kind)).length
      = ((List.range layout.length).filter
        (fun i => layout.getD i FlexRamKind.Unused = kind)).length := by
  intro m
  induction m with
  | zero => rfl
  | succ m ih =>
    rw [← Nat.add_assoc, List.range_succ, List.filter_append, List.length_append, ih]
    have hd : layout.getD (layout.length + m) FlexRamKind.Unused = FlexRamKind.Unused :=
      List.getD_eq_default _ _ (by omega)
    have hfalse : decide (layout.getD (layout.length + m) FlexRamKind.Unused = kind)
        = false := by
      rw [hd]
      exact decide_eq_false (Ne.symm hk)
    simp only [List.filter_cons, hfalse]
    simp

theorem count_range_eq_count (layout : List FlexRamKind) (kind : FlexRamKind) :
    ((List.range layout.length).filter
      (fun i => layout.getD i FlexRamKind.Unused = kind)).length
    = layout_count_of kind layout := by
  rw [layout_count_of, ← List.countP_eq_length_filter, ← List.countP_eq_length_filter]
  conv_rhs => rw [← map_getD_range layout FlexRamKind.Unused]
  rw [List.countP_map]
  rfl

/-- Decoding the first `bank_count` two-bit fields of the encoded word
recovers the count of any used role in the layout. -/
theorem field_count_decode (family : Family) (layout : List FlexRamKind)
    (kind : FlexRamKind) (hlen : layout.length ≤ family.flexram_bank_count)
    (hk : kind ≠ FlexRamKind.Unused) :
    field_count_of kind (flexram_config_spec layout) family.flexram_bank_count
      = layout_count_of kind layout := by
  unfold field_count_of
  have hpred : ∀ i ∈ List.range family.flexram_bank_count,
      (decide (flexram_field i (flexram_config_spec layout) = kind.code))
        = decide (layout.getD i FlexRamKind.Unused = kind) := by
    intro i _
    rw [decide_eq_decide, flexram_config_spec_eq, flexram_field_word]
    exact FlexRamKind.code_inj
  rw [List.filter_congr hpred,
    show family.flexram_bank_count
      = layout.length + (family.flexram_bank_count - layout.length) from by omega,
    filter_range_add layout kind hk, count_range_eq_count]

/-- C7: counting the roles in the canonical layout produced from a
(shared, data, instruction) triple recovers the triple exactly; and for a
non-1180 family whose bank count accommodates the triple, decoding the
two-bit fields of the encoded word recovers the same triple. -/
theorem claim_C7 (banks : FlexRamBanks) :
    (layout_count_of .Ocram banks.to_flexram_layout = banks.ocram
      ∧ layout_count_of .Dtcm banks.to_flexram_layout = banks.dtcm
      ∧ layout_count_of .Itcm banks.to_flexram_layout = banks.itcm)
    ∧ ∀ family : Family, family ≠ Family.Imxrt1180 →
      banks.ocram + banks.dtcm + banks.itcm ≤ family.flexram_bank_count →
      flexram_config family banks.to_flexram_layout
        = some (flexram_config_spec banks.to_flexram_layout)
      ∧ field_count_of .Ocram (flexram_config_spec banks.to_flexram_layout)
          family.flexram_bank_count = banks.ocram
      ∧ field_count_of .Dtcm (flexram_config_spec banks.to_flexram_layout)
          family.flexram_bank_count = banks.dtcm
      ∧ field_count_of .Itcm (flexram_config_spec banks.to_flexram_layout)
          family.flexram_bank_count = banks.itcm := by
  have hcounts : layout_count_of .Ocram banks.to_flexram_layout = banks.ocram
      ∧ layout_count_of .Dtcm banks.to_flexram_layout = banks.dtcm
      ∧ layout_count_of .Itcm banks.to_flexram_layout = banks.itcm := by
    refine ⟨?_, ?_, ?_⟩ <;>
      simp [layout_count_of, FlexRamBanks.to_flexram_layout, List.filter_append,
        filter_replicate_length]
  refine ⟨hcounts, ?_⟩
  intro family hfam hsum
  have hlen : banks.to_flexram_layout.length ≤ family.flexram_bank_count := by
    rw [to_flexram_layout_length]; exact hsum
  refine ⟨claim_C2 family banks.to_flexram_layout hfam hlen, ?_, ?_, ?_⟩
  · rw [field_count_decode family _ _ hlen (by decide)]; exact hcounts.1
  · rw [field_count_decode family _ _ hlen (by decide)]; exact hcounts.2.1
  · rw [field_count_decode family _ _ hlen (by decide)]; exact hcounts.2.2

/-- Witness for C7 at the triple (2, 3, 4) on the 1040. -/
theorem claim_C7_witness :
    (layout_count_of .Ocram (FlexRamBanks.to_flexram_layout { ocram := 2, dtcm := 3, itcm := 4 }) = 2
      ∧ layout_count_of .Dtcm (FlexRamBanks.to_flexram_layout { ocram := 2, dtcm := 3, itcm := 4 }) = 3
      ∧ layout_count_of .Itcm (FlexRamBanks.to_flexram_layout { ocram := 2, dtcm := 3, itcm := 4 }) = 4)
    ∧ (Family.Imxrt1040 ≠ Family.Imxrt1180
      ∧ 2 + 3 + 4 ≤ Family.flexram_bank_count Family.Imxrt1040
      ∧ field_count_of .Dtcm
          (flexram_config_spec (FlexRamBanks.to_flexram_layout { ocram := 2, dtcm := 3, itcm := 4 }))
          (Family.flexram_bank_count Family.Imxrt1040) = 3) :=
  ⟨(claim_C7 { ocram := 2, dtcm := 3, itcm := 4 }).1,
    by decide, by decide,
    ((claim_C7 { ocram := 2, dtcm := 3, itcm := 4 }).2 Family.Imxrt1040
      (by decide) (by decide)).2.2.1⟩

/-! ### The two-bank Imxrt1180 special case -/

/-- C1 (amended): for the two-bank Imxrt1180 and any layout of at most two
banks, the three supported combinations map to the distinct fixed codes
0b00 (1 ITCM + 1 DTCM), 0b10 (2 ITCM) and 0b01 (2 DTCM); every *other*
combination is not caught by the Validator (`check_configurations` accepts
it) — instead the encoder `flexram_config` itself fails (a `panic!`,
modelled as `none`), so no default word is ever silently produced. -/
theorem claim_C1 (layout : List FlexRamKind) (hlen : layout.length ≤ 2) :
    ((layout_count_of .Itcm layout = 1 ∧ layout_count_of .Dtcm layout = 1
        ∧ layout_count_of .Ocram layout = 0)
      → flexram_config Family.Imxrt1180 layout = some 0b00)
    ∧ ((layout_count_of .Itcm layout = 2 ∧ layout_count_of .Dtcm layout = 0
        ∧ layout_count_of .Ocram layout = 0)
      → flexram_config Family.Imxrt1180 layout = some 0b10)
    ∧ ((layout_count_of .Itcm layout = 0 ∧ layout_count_of .Dtcm layout = 2
        ∧ layout_count_of .Ocram layout = 0)
      → flexram_config Family.Imxrt1180 layout = some 0b01)
    ∧ (¬ ((layout_count_of .Itcm layout = 1 ∧ layout_count_of .Dtcm layout = 1
          ∧ layout_count_of .Ocram layout = 0)
        ∨ (layout_count_of .Itcm layout = 2 ∧ layout_count_of .Dtcm layout = 0
          ∧ layout_count_of .Ocram layout = 0)
        ∨ (layout_count_of .Itcm layout = 0 ∧ layout_count_of .Dtcm layout = 2
          ∧ layout_count_of .Ocram layout = 0))
      → flexram_config Family.Imxrt1180 layout = none)
    ∧ { RuntimeBuilder.from_ram Family.Imxrt1180 with
        flexram_layout := layout }.check_configurations = .ok () := by
  match layout, hlen with
  | [], _ => decide
  | [a], _ => cases a <;> decide
  | [a, b], _ => cases a <;> cases b <;> decide

/-- Witness for C1 at the layout [ITCM, DTCM]. -/
theorem claim_C1_witness :
    ([FlexRamKind.Itcm, FlexRamKind.Dtcm] : List FlexRamKind).length ≤ 2
    ∧ flexram_config Family.Imxrt1180 [FlexRamKind.Itcm, FlexRamKind.Dtcm] = some 0b00 :=
  ⟨by decide,
    (claim_C1 [FlexRamKind.Itcm, FlexRamKind.Dtcm] (by decide)).1
      ⟨by decide, by decide, by decide⟩⟩

/-- Counterexample to C1 as frozen: the combination of two OCRAM banks on
the Imxrt1180 is not one of the three supported ones, yet the Validator
(`check_configurations`) reports *no* error for it — the failure happens
later, as a panic inside the encoder (`flexram_config`, modelled as
`none`). -/
theorem claim_C1_counterexample :
    ([FlexRamKind.Ocram, FlexRamKind.Ocram] : List FlexRamKind).length ≤ 2
    ∧ { RuntimeBuilder.from_ram Family.Imxrt1180 with
        flexram_layout := [FlexRamKind.Ocram, FlexRamKind.Ocram] }.check_configurations
      = .ok ()
    ∧ flexram_config Family.Imxrt1180 [FlexRamKind.Ocram, FlexRamKind.Ocram] = none := by
  refine ⟨by decide, by decide, by decide⟩

/-! ### The validator's bank-count check -/

/-- C5: the bank-count check is the first check `check_configurations`
performs: whenever the layout holds more banks than the family has, the
result is the bank-count error — naming the family, its bank count, and the
requested total — regardless of every other field; and when the layout's
length equals the family's bank count this first check passes, the result
being exactly that of the remaining checks. -/
theorem claim_C5 (b : RuntimeBuilder) :
    (b.family.flexram_bank_count < b.flexram_layout.length →
      b.check_configurations = .error (.tooManyBanks b.family
        b.family.flexram_bank_count b.flexram_layout b.flexram_layout.length))
    ∧ (b.flexram_layout.length = b.family.flexram_bank_count →
      b.check_configurations = check_configurations_rest b) := by
  constructor
  · intro h
    unfold RuntimeBuilder.check_configurations
    rw [if_pos h]
  · intro h
    unfold RuntimeBuilder.check_configurations
    rw [if_neg (by omega)]

/-- Witness for C5: five banks on the four-bank 1010 yield the bank-count
error; the 1010's default four-bank layout passes the first check. -/
theorem claim_C5_witness :
    (Family.flexram_bank_count Family.Imxrt1010 < (List.replicate 5 FlexRamKind.Ocram).length
      ∧ { RuntimeBuilder.from_ram Family.Imxrt1010 with
          flexram_layout := List.replicate 5 FlexRamKind.Ocram }.check_configurations
        = .error (.tooManyBanks Family.Imxrt1010 4 (List.replicate 5 FlexRamKind.Ocram) 5))
    ∧ ((RuntimeBuilder.from_ram Family.Imxrt1010).flexram_layout.length
        = Family.flexram_bank_count Family.Imxrt1010
      ∧ (RuntimeBuilder.from_ram Family.Imxrt1010).check_configurations
        = check_configurations_rest (RuntimeBuilder.from_ram Family.Imxrt1010)) :=
  ⟨⟨by decide,
    (claim_C5 { RuntimeBuilder.from_ram Family.Imxrt1010 with
      flexram_layout := List.replicate 5 FlexRamKind.Ocram }).1 (by decide)⟩,
   ⟨by decide, (claim_C5 (RuntimeBuilder.from_ram Family.Imxrt1010)).2 (by decide)⟩⟩

/-! ### Environment overrides -/

/-- C6: override resolution. With no override name, or with the named
variable unset, `read` returns the stored default; a plain digit string is
returned as the integer it denotes; a digit string with a `k`/`K` suffix is
multiplied by 1024; and `set_env_key` replaces any previously stored name
outright, so only the most recently assigned name is consulted. -/
theorem claim_C6 (o : EnvOverride) (envMap : String → Option String) (a b : String) :
    (o.env = none → o.read envMap = some o.default)
    ∧ (∀ key, o.env = some key → envMap key = none → o.read envMap = some o.default)
    ∧ (∀ key val, o.env = some key → envMap key = some val →
        val.toList ≠ [] → val.toList.all (fun c => c.isDigit) →
        o.read envMap = some (val.toList.foldl
          (fun acc c => acc * 10 + (c.toNat - '0'.toNat)) 0))
    ∧ (∀ key val, o.env = some key → envMap key = some val →
        (val.toList.getLast? = some 'k' ∨ val.toList.getLast? = some 'K') →
        o.read envMap = (parse_usize_chars val.toList.dropLast).map (fun n => n * 1024))
    ∧ (o.set_env_key a).set_env_key b = o.set_env_key b := by
  refine ⟨?_, ?_, ?_, ?_, rfl⟩
  · intro h
    simp [EnvOverride.read, h]
  · intro key hk he
    simp [EnvOverride.read, hk, he]
  · intro key val hk he hne hdig
    have hlast : ∀ c : Char, val.toList.getLast? = some c → c.isDigit = true := by
      intro c hc
      have hmem : c ∈ val.toList := by
        rcases List.mem_getLast?_eq_getLast (l := val.toList) (x := c) hc with ⟨h3, hx⟩
        rw [hx]
        exact List.getLast_mem h3
      exact List.all_eq_true.mp hdig c hmem
    have hcond : ¬ (val.toList.getLast? = some 'k' ∨ val.toList.getLast? = some 'K') := by
      rintro (hc | hc) <;> simpa using hlast _ hc
    simp only [EnvOverride.read, hk, he, Option.bind, if_neg hcond]
    match hv : val.toList, hne, hdig with
    | c :: rest, _, hdig =>
      have hc : c.isDigit = true := by
        have := List.all_eq_true.mp hdig c (by simp)
        simpa using this
      have hplus : c ≠ '+' := by
        intro h
        rw [h] at hc
        simp [Char.isDigit] at hc
      have harm : parse_usize_chars (c :: rest) = parse_digits (c :: rest) := by
        unfold parse_usize_chars
        split
        · rename_i heq
          exact absurd heq (by simp)
        · rename_i heq
          have h1 : c = '+' := by injection heq
          exact absurd h1 hplus
        · rfl
      rw [harm, parse_digits, if_pos ⟨by simp, hdig⟩]
  · intro key val hk he hl
    simp only [EnvOverride.read, hk, he, Option.bind, if_pos hl]

/-- Witness for C6: "4k" and "4096" both resolve to 4096; an override name
assigned after another wins. -/
theorem claim_C6_witness :
    ((EnvOverride.new 8192).env = none
      ∧ (EnvOverride.new 8192).read (fun _ => none) = some 8192)
    ∧ ((EnvOverride.new 8192).set_env_key "SZ").read
        (fun k => if k = "SZ" then some "4096" else none) = some 4096
    ∧ ((EnvOverride.new 8192).set_env_key "SZ").read
        (fun k => if k = "SZ" then some "4k" else none) = some 4096
    ∧ ((EnvOverride.new 8192).set_env_key "A").set_env_key "B"
        = (EnvOverride.new 8192).set_env_key "B"
    ∧ (((EnvOverride.new 8192).set_env_key "A").set_env_key "B").read
        (fun k => if k = "A" then some "1k" else if k = "B" then some "2k" else none)
      = some 2048 := by
  refine ⟨⟨rfl, (claim_C6 (EnvOverride.new 8192) (fun _ => none) "A" "B").1 rfl⟩, ?_, ?_, ?_, ?_⟩
  · have h := ((claim_C6 ((EnvOverride.new 8192).set_env_key "SZ")
      (fun k => if k = "SZ" then some "4096" else none) "A" "B").2.2.1) "SZ" "4096"
      rfl (by decide) (by decide) (by decide)
    rw [h]
    decide
  · have h := ((claim_C6 ((EnvOverride.new 8192).set_env_key "SZ")
      (fun k => if k = "SZ" then some "4k" else none) "A" "B").2.2.2.1) "SZ" "4k"
      rfl (by decide) (by decide)
    rw [h]
    decide
  · exact (claim_C6 (EnvOverride.new 8192)
      (fun k => if k = "A" then some "1k" else if k = "B" then some "2k" else none)
      "A" "B").2.2.2.2
  · have h := ((claim_C6 (((EnvOverride.new 8192).set_env_key "A").set_env_key "B")
      (fun k => if k = "A" then some "1k" else if k = "B" then some "2k" else none)
      "A" "B").2.2.2.1) "B" "2k" rfl (by decide) (by decide)
    rw [h]
    decide

/-! ### Flash-placement checks -/

theorem ok_bind {ε α β : Type} (x : α) (f : α → Except ε β) :
    (Except.ok x >>= f) = f x := rfl

theorem error_bind {ε α β : Type} (e : ε) (f : α → Except ε β) :
    ((Except.error e : Except ε α) >>= f) = Except.error e := rfl

/-- The `prevent_flash!` chain fails with the first section of the fixed
order that is placed in flash, and succeeds when there is none. -/
theorem section_checks_spec (b : RuntimeBuilder) :
    section_checks b = match first_flash_section b with
      | some name => .error (.sectionInFlash name)
      | none => .ok () := by
  unfold section_checks first_flash_section
  by_cases h1 : b.data = Memory.Flash <;>
  by_cases h2 : b.vectors = Memory.Flash <;>
  by_cases h3 : b.bss = Memory.Flash <;>
  by_cases h4 : b.uninit = Memory.Flash <;>
  by_cases h5 : b.stack = Memory.Flash <;>
  by_cases h6 : b.heap = Memory.Flash <;>
  simp [prevent_flash, h1, h2, h3, h4, h5, h6, ok_bind, error_bind]

/-- When the boot-ROM and FlexSPI checks pass, the remaining checks are
exactly the flash-placement chain. -/
theorem check_rest_eq_section (b : RuntimeBuilder)
    (hocram : b.family.bootrom_ocram_banks ≤ layout_count_of .Ocram b.flexram_layout)
    (hsup : ∀ fo, b.flash_opts = some fo →
      fo.flexspi.supported_for_family b.family = true) :
    check_configurations_rest b = section_checks b := by
  unfold check_configurations_rest
  rw [if_neg (by omega)]
  cases hfo : b.flash_opts with
  | none => rfl
  | some fo =>
    simp [hsup fo hfo]

/-- C4 (amended): whenever any of {data, vectors, bss, uninit, stack, heap}
is placed in flash, validation fails with *some* error; and when the
configuration passes the earlier checks (bank count, boot-ROM OCRAM
reservation, FlexSPI support), the error is the flash-placement error naming
the *first* offending section in the fixed order
data, vectors, bss, uninit, stack, heap. -/
theorem claim_C4 (b : RuntimeBuilder)
    (hflash : b.data = Memory.Flash ∨ b.vectors = Memory.Flash ∨ b.bss = Memory.Flash
      ∨ b.uninit = Memory.Flash ∨ b.stack = Memory.Flash ∨ b.heap = Memory.Flash) :
    (∃ e, b.check_configurations = .error e)
    ∧ (∀ name, first_flash_section b = some name →
        b.flexram_layout.length ≤ b.family.flexram_bank_count →
        b.family.bootrom_ocram_banks ≤ layout_count_of .Ocram b.flexram_layout →
        (∀ fo, b.flash_opts = some fo →
          fo.flexspi.supported_for_family b.family = true) →
        b.check_configurations = .error (.sectionInFlash name)) := by
  have hfirst : ∃ name, first_flash_section b = some name := by
    unfold first_flash_section
    split_ifs <;> first | exact ⟨_, rfl⟩ | tauto
  obtain ⟨name0, hname0⟩ := hfirst
  constructor
  · cases hc : b.check_configurations with
    | error e => exact ⟨e, rfl⟩
    | ok u =>
      exfalso
      unfold RuntimeBuilder.check_configurations check_configurations_rest at hc
      rw [section_checks_spec, hname0] at hc
      split at hc <;> try simp_all
      split at hc <;> try simp_all
      split at hc <;> try simp_all
      split at hc <;> simp_all
  · intro name hname hlen hocram hsup
    unfold RuntimeBuilder.check_configurations
    rw [if_neg (by omega), check_rest_eq_section b hocram hsup, section_checks_spec, hname]

/-- Witness for C4: placing mutable data in flash on a 1020 RAM build fails
with the error naming section data. -/
theorem claim_C4_witness :
    first_flash_section { RuntimeBuilder.from_ram Family.Imxrt1020 with
        data := Memory.Flash } = some "data"
    ∧ { RuntimeBuilder.from_ram Family.Imxrt1020 with
        data := Memory.Flash }.check_configurations = .error (.sectionInFlash "data") :=
  ⟨by decide,
    (claim_C4 { RuntimeBuilder.from_ram Family.Imxrt1020 with data := Memory.Flash }
      (Or.inl rfl)).2 "data" (by decide) (by decide) (by decide)
      (fun fo h => nomatch h)⟩

/-- Counterexample to C4 as frozen: a builder that over-allocates banks and
also places data and stack in flash fails with the *bank-count* error; the
message does not name either offending section, although the claim demands
it for every configuration. -/
theorem claim_C4_counterexample :
    (c4_cex_builder.data = Memory.Flash ∧ c4_cex_builder.stack = Memory.Flash)
    ∧ c4_cex_builder.check_configurations
      = .error (.tooManyBanks Family.Imxrt1010 4 (List.replicate 5 FlexRamKind.Ocram) 5)
    ∧ c4_cex_builder.check_configurations ≠ .error (.sectionInFlash "data")
    ∧ c4_cex_builder.check_configurations ≠ .error (.sectionInFlash "stack") := by
  refine ⟨⟨rfl, rfl⟩, by decide, by decide, by decide⟩

/-! ### The emitted ITCM block -/

/-- C9: on every family but the 1180 the ITCM region starts at 32 — never at
address 0, the first 32 bytes being a null-pointer/MPU reservation — and its
size is the banks' size minus those 32 bytes, saturating at zero; on the
1180 the region ends at 0x10000000 and keeps its full size. Whenever the
layout has any ITCM banks, exactly this block is emitted. -/
theorem claim_C9 (family : Family) (n : Nat) :
    (family ≠ Family.Imxrt1180 →
      family.itcm_start_size n = (32, n * family.flexram_bank_size - 32))
    ∧ Family.itcm_start_size Family.Imxrt1180 n
      = (0x10000000 - n * (128 * 1024), n * (128 * 1024))
    ∧ ∀ layout : List FlexRamKind, layout_count_of .Itcm layout = n → 0 < n →
      Directive.memoryBlock "ITCM" (family.itcm_start_size n).1
          (family.itcm_start_size n).2
        ∈ write_flexram_memories family layout := by
  refine ⟨?_, rfl, ?_⟩
  · intro hfam
    cases family <;> first | rfl | exact absurd rfl hfam
  · intro layout hcount hpos
    unfold write_flexram_memories
    simp [hcount, hpos]

/-- Witness for C9: one ITCM bank on the 1010 and on the 1180. -/
theorem claim_C9_witness :
    Family.Imxrt1010 ≠ Family.Imxrt1180
    ∧ Family.itcm_start_size Family.Imxrt1010 1
      = (32, 1 * Family.flexram_bank_size Family.Imxrt1010 - 32)
    ∧ Family.itcm_start_size Family.Imxrt1180 1
      = (0x10000000 - 1 * (128 * 1024), 1 * (128 * 1024))
    ∧ layout_count_of .Itcm [FlexRamKind.Itcm] = 1
    ∧ Directive.memoryBlock "ITCM" (Family.itcm_start_size Family.Imxrt1010 1).1
        (Family.itcm_start_size Family.Imxrt1010 1).2
      ∈ write_flexram_memories Family.Imxrt1010 [FlexRamKind.Itcm] :=
  ⟨by decide,
    (claim_C9 Family.Imxrt1010 1).1 (by decide),
    (claim_C9 Family.Imxrt1010 1).2.1,
    by decide,
    (claim_C9 Family.Imxrt1010 1).2.2 [FlexRamKind.Itcm] (by decide) (by decide)⟩

/-! ### Load-location aliases -/

theorem filter_load_flexram (family : Family) (layout : List FlexRamKind) :
    (write_flexram_memories family layout).filter is_load_alias = [] := by
  simp only [write_flexram_memories]
  split_ifs <;> simp [is_load_alias]

theorem filter_load_flash_map (family : Family) (fo : FlashOpts)
    (layout : List FlexRamKind) (mm : List Directive)
    (h : write_flash_memory_map family fo layout = some mm) :
    mm.filter is_load_alias = [] := by
  unfold write_flash_memory_map at h
  split at h
  · exact absurd h (by simp)
  · injection h with h'
    subst h'
    simp [List.filter_append, filter_load_flexram, is_load_alias]

theorem filter_load_ram_map (family : Family) (layout : List FlexRamKind) :
    (write_ram_memory_map family layout).filter is_load_alias = [] := by
  simp [write_ram_memory_map, List.filter_append, filter_load_flexram, is_load_alias]

/-- C8: in every successfully emitted artifact, the four load-location
aliases LOAD_VTABLE, LOAD_TEXT, LOAD_RODATA, LOAD_DATA all point at Flash
when a flash configuration is present, and each points at its own section's
execution region (vectors, text, rodata, data) when it is absent — and these
are the only load-location aliases emitted. -/
theorem claim_C8 (b : RuntimeBuilder) (dev : Bool) (envMap : String → Option String)
    (ds : List Directive) (h : b.write_linker_script dev envMap = .ok ds) :
    ds.filter is_load_alias
      = if b.flash_opts.isSome then
          [.regionAlias "LOAD_VTABLE" Memory.Flash, .regionAlias "LOAD_TEXT" Memory.Flash,
           .regionAlias "LOAD_RODATA" Memory.Flash, .regionAlias "LOAD_DATA" Memory.Flash]
        else
          [.regionAlias "LOAD_VTABLE" b.vectors, .regionAlias "LOAD_TEXT" b.text,
           .regionAlias "LOAD_RODATA" b.rodata, .regionAlias "LOAD_DATA" b.data] := by
  unfold RuntimeBuilder.write_linker_script at h
  rcases hc : b.check_configurations with e | u
  · simp [hc] at h
  rcases hfo : b.flash_opts with _ | fo
  · rcases hss : b.stack_size.read envMap with _ | ss
    · simp [hc, hfo, hss] at h
    rcases hhs : b.heap_size.read envMap with _ | hs
    · simp [hc, hfo, hss, hhs] at h
    rcases hfw : flexram_config b.family b.flexram_layout with _ | fw
    · simp [hc, hfo, hss, hhs, hfw] at h
    simp only [hc, hfo, hss, hhs, hfw, Except.ok.injEq] at h
    subst h
    simp [List.filter_append, filter_load_ram_map, is_load_alias, hfo,
      apply_ite (List.filter is_load_alias)]
  · rcases hwf : write_flash_memory_map b.family fo b.flexram_layout with _ | mm
    · simp [hc, hfo, hwf] at h
    cases hbh : fo.boot_header
    · rcases hss : b.stack_size.read envMap with _ | ss
      · simp [hc, hfo, hwf, hbh, hss] at h
      rcases hhs : b.heap_size.read envMap with _ | hs
      · simp [hc, hfo, hwf, hbh, hss, hhs] at h
      rcases hfw : flexram_config b.family b.flexram_layout with _ | fw
      · simp [hc, hfo, hwf, hbh, hss, hhs, hfw] at h
      simp only [hc, hfo, hwf, hbh, hss, hhs, hfw, Except.ok.injEq, Bool.false_eq_true,
        if_false] at h
      subst h
      simp [List.filter_append, filter_load_flash_map b.family fo b.flexram_layout mm hwf,
        is_load_alias, hfo, apply_ite (List.filter is_load_alias)]
    · rcases hss : b.stack_size.read envMap with _ | ss
      · simp [hc, hfo, hwf, hbh, hss] at h
      rcases hhs : b.heap_size.read envMap with _ | hs
      · simp [hc, hfo, hwf, hbh, hss, hhs] at h
      rcases hfw : flexram_config b.family b.flexram_layout with _ | fw
      · simp [hc, hfo, hwf, hbh, hss, hhs, hfw] at h
      simp only [hc, hfo, hwf, hbh, hss, hhs, hfw, Except.ok.injEq, if_true] at h
      subst h
      simp [List.filter_append, filter_load_flash_map b.family fo b.flexram_layout mm hwf,
        is_load_alias, hfo, apply_ite (List.filter is_load_alias)]

/-- Witness for C8: a RAM build of the 1060 emits exactly the four
own-region load aliases. -/
theorem claim_C8_witness :
    ({ RuntimeBuilder.from_ram Family.Imxrt1060 with
        flexram_layout := ([] : List FlexRamKind) }.write_linker_script false (fun _ => none)
      = .ok c8_witness_ds)
    ∧ c8_witness_ds.filter is_load_alias
      = [.regionAlias "LOAD_VTABLE" Memory.Dtcm, .regionAlias "LOAD_TEXT" Memory.Itcm,
         .regionAlias "LOAD_RODATA" Memory.Ocram, .regionAlias "LOAD_DATA" Memory.Ocram] := by
  refine ⟨by decide, ?_⟩
  have h := claim_C8 { RuntimeBuilder.from_ram Family.Imxrt1060 with
      flexram_layout := ([] : List FlexRamKind) } false (fun _ => none)
    c8_witness_ds (by decide)
  simpa using h

/-! ### What validation leaves unchecked: text and rodata in flash -/

theorem is_flash_block_regionAlias (n : String) (m : Memory) :
    is_flash_block (.regionAlias n m) = false := rfl

theorem is_flash_block_symbol (n : String) (v : Nat) :
    is_flash_block (.symbol n v) = false := rfl

theorem is_flash_block_linkX : is_flash_block .linkX = false := rfl

theorem is_flash_block_includeDevice (n : String) :
    is_flash_block (.includeDevice n) = false := rfl

theorem all_not_flash_flexram (family : Family) (layout : List FlexRamKind) :
    (write_flexram_memories family layout).all (fun d => !(is_flash_block d)) = true := by
  simp only [write_flexram_memories]
  split_ifs <;> simp [is_flash_block]

theorem all_not_flash_ram (family : Family) (layout : List FlexRamKind) :
    (write_ram_memory_map family layout).all (fun d => !(is_flash_block d)) = true := by
  simp only [write_ram_memory_map, List.all_append, all_not_flash_flexram]
  simp [is_flash_block]

/-- Shape of a successful RAM-mode emission: the RAM memory map, the
optional device include, the section aliases and size symbols, the four
own-region load aliases, and the closing symbols and boilerplate. -/
theorem write_ram_shape (b : RuntimeBuilder) (dev : Bool) (envMap : String → Option String)
    (ds : List Directive) (hfo : b.flash_opts = none)
    (h : b.write_linker_script dev envMap = .ok ds) :
    ∃ ss hs fw : Nat,
      b.stack_size.read envMap = some ss
      ∧ b.heap_size.read envMap = some hs
      ∧ flexram_config b.family b.flexram_layout = some fw
      ∧ ds = write_ram_memory_map b.family b.flexram_layout
          ++ (if dev = true then [Directive.includeDevice b.device_script_name] else [])
          ++ [Directive.regionAlias "TEXT" b.text,
              Directive.regionAlias "VTABLE" b.vectors,
              Directive.regionAlias "RODATA" b.rodata,
              Directive.regionAlias "DATA" b.data,
              Directive.regionAlias "BSS" b.bss,
              Directive.regionAlias "UNINIT" b.uninit,
              Directive.regionAlias "STACK" b.stack,
              Directive.regionAlias "HEAP" b.heap,
              Directive.symbol "__stack_size" ss,
              Directive.symbol "__heap_size" hs]
          ++ [Directive.regionAlias "LOAD_VTABLE" b.vectors,
              Directive.regionAlias "LOAD_TEXT" b.text,
              Directive.regionAlias "LOAD_RODATA" b.rodata,
              Directive.regionAlias "LOAD_DATA" b.data]
          ++ [Directive.symbol "__flexram_config" fw,
              Directive.symbol "__imxrt_rt_v0.2" b.family.id,
              Directive.linkX] := by
  unfold RuntimeBuilder.write_linker_script at h
  rcases hc : b.check_configurations with e | u
  · simp [hc] at h
  rcases hss : b.stack_size.read envMap with _ | ss
  · simp [hc, hfo, hss] at h
  rcases hhs : b.heap_size.read envMap with _ | hs
  · simp [hc, hfo, hss, hhs] at h
  rcases hfw : flexram_config b.family b.flexram_layout with _ | fw
  · simp [hc, hfo, hss, hhs, hfw] at h
  refine ⟨ss, hs, fw, rfl, rfl, rfl, ?_⟩
  simp only [hc, hfo, hss, hhs, hfw, Except.ok.injEq, Option.isSome_none,
    Bool.false_eq_true, if_false] at h
  exact h.symm

/-- C10: validation never inspects the text or rodata placements — replacing
them changes nothing about `check_configurations` — so for every family a
RAM-mode build that places text and rodata in Flash passes validation and
emits an artifact that declares no FLASH memory block while its TEXT and
RODATA aliases still point at FLASH; rejecting that dangling reference is
left to the downstream linker. -/
theorem claim_C10 :
    (∀ (b : RuntimeBuilder) (m m' : Memory),
      RuntimeBuilder.check_configurations { b with text := m, rodata := m' }
        = b.check_configurations)
    ∧ ∀ (family : Family) (dev : Bool) (envMap : String → Option String),
      ({ RuntimeBuilder.from_ram family with
          text := Memory.Flash, rodata := Memory.Flash }.check_configurations = .ok ())
      ∧ ∀ ds, { RuntimeBuilder.from_ram family with
            text := Memory.Flash, rodata := Memory.Flash }.write_linker_script dev envMap
          = .ok ds →
        (ds.all (fun d => !(is_flash_block d)) = true
          ∧ Directive.regionAlias "TEXT" Memory.Flash ∈ ds
          ∧ Directive.regionAlias "RODATA" Memory.Flash ∈ ds) := by
  refine ⟨fun b m m' => rfl, fun family dev envMap => ⟨by cases family <;> decide, ?_⟩⟩
  intro ds h
  obtain ⟨ss, hs, fw, hss, hhs, hfw, hds⟩ := write_ram_shape _ dev envMap ds rfl h
  subst hds
  refine ⟨?_, ?_, ?_⟩
  · cases dev <;>
      simp [-List.all_eq_true, List.all_append, all_not_flash_ram,
        is_flash_block_regionAlias, is_flash_block_symbol, is_flash_block_linkX,
        is_flash_block_includeDevice]
  · simp [List.mem_append]
  · simp [List.mem_append]

/-- Witness for C10: the 1010 RAM build with text and rodata in flash. -/
theorem claim_C10_witness :
    ({ RuntimeBuilder.from_ram Family.Imxrt1010 with
        text := Memory.Flash, rodata := Memory.Flash }.write_linker_script false (fun _ => none)
      = .ok c10_witness_ds)
    ∧ c10_witness_ds.all (fun d => !(is_flash_block d)) = true
    ∧ Directive.regionAlias "TEXT" Memory.Flash ∈ c10_witness_ds
    ∧ Directive.regionAlias "RODATA" Memory.Flash ∈ c10_witness_ds := by
  have h := (claim_C10.2 Family.Imxrt1010 false (fun _ => none)).2 c10_witness_ds (by decide)
  exact ⟨by decide, h.1, h.2.1, h.2.2⟩

end ImxrtRt
